import Mathlib

/-!
Shallow embedding of `tensordict/_memory_map.py`: the anonymous shared-memory
tensor backing store (`_FileHandler`, `_choose_dir`, `_reduce_handler`,
`_rebuild_handler`) and the typed-buffer factory (`empty_like`, `zeros_like`,
`ones_like`, `from_tensor`).  OS state (files, descriptors, named files) is
passed explicitly; external torch operations are modelled only as far as this
module exercises them.
-/

namespace MemMap

/-- Scalar values stored in a mapped buffer.  The Python floats occurring in
this module (0.0 from zeroing, 1.0 from `fill_(1.0)`, 5.0 in the worked
example) are integral and exactly representable in every floating dtype, so
float payloads are carried as integers.  `undef` stands for the unspecified
contents of freshly mapped, uninitialized memory. -/
inductive Value where
  | undef : Value
  | boolV : Bool → Value
  | intV : Int → Value
  | floatV : Int → Value
  deriving DecidableEq, Repr

/-- The torch dtypes this module distinguishes. -/
inductive DType where
  | float16 | bfloat16 | float32 | float64
  | complex64 | complex128
  | bool
  | uint8 | int8 | int16 | int32 | int64
  deriving DecidableEq, Repr

/-- `dtype.is_floating_point` -/
def DType.is_floating_point : DType → Bool
  | .float16 | .bfloat16 | .float32 | .float64 => true
  | _ => false

/-- `dtype.is_complex` -/
def DType.is_complex : DType → Bool
  | .complex64 | .complex128 => true
  | _ => false

/-- `torch.finfo(dtype).bits` (only queried on floating dtypes). -/
def DType.finfoBits : DType → Nat
  | .float16 => 16 | .bfloat16 => 16 | .float32 => 32 | .float64 => 64
  | .complex64 => 64 | .complex128 => 128
  | _ => 0

/-- `torch.iinfo(dtype).bits` (only queried on integer dtypes). -/
def DType.iinfoBits : DType → Nat
  | .uint8 => 8 | .int8 => 8 | .int16 => 16 | .int32 => 32 | .int64 => 64
  | _ => 0

/-- Bytes per element (torch `element_size`). -/
def DType.byteWidth : DType → Nat
  | .float16 => 2 | .bfloat16 => 2 | .float32 => 4 | .float64 => 8
  | .complex64 => 8 | .complex128 => 16
  | .bool => 1
  | .uint8 => 1 | .int8 => 1 | .int16 => 2 | .int32 => 4 | .int64 => 8

/-- The zero value of a dtype, as `zero_()` writes it.  Complex buffers are
never created by this module, so the complex entry is immaterial. -/
def DType.zeroVal : DType → Value
  | .bool => .boolV false
  | .uint8 | .int8 | .int16 | .int32 | .int64 => .intV 0
  | .complex64 | .complex128 => .undef
  | _ => .floatV 0

/-- Casting a Python float (integral here) into a dtype, as `fill_` and item
assignment do: booleans take the truth value, integer dtypes the integer. -/
def DType.castPyFloat (dt : DType) (x : Int) : Value :=
  match dt with
  | .bool => .boolV (x != 0)
  | .uint8 | .int8 | .int16 | .int32 | .int64 => .intV x
  | .complex64 | .complex128 => .undef
  | _ => .floatV x

/-- Errors raised by the module. -/
inductive Err where
  | valueError : String → Err
  | runtimeError : String → Err
  | osError : String → Err
  deriving DecidableEq, Repr

/-- One OS file: its current length in bytes, and its contents viewed as the
element sequence of the one dtype it is mapped with. -/
structure FileData where
  byteSize : Nat
  elems : List Value
  deriving DecidableEq, Repr

/-- OS-level state: files by id, the descriptor table (each open descriptor
names a file id; dup appends a second entry for the same file), and the
directory of named files. -/
structure Sys where
  files : List FileData
  fds : List Nat
  named : List (String × Nat)
  deriving DecidableEq, Repr

def emptySys : Sys := ⟨[], [], []⟩

instance {ε α : Type} [DecidableEq ε] [DecidableEq α] : DecidableEq (Except ε α) :=
  fun x y =>
    match x, y with
    | .ok a, .ok b =>
        if h : a = b then isTrue (by rw [h]) else isFalse (by simp [h])
    | .error a, .error b =>
        if h : a = b then isTrue (by rw [h]) else isFalse (by simp [h])
    | .ok _, .error _ => isFalse (by simp)
    | .error _, .ok _ => isFalse (by simp)

/-- Replace the element at an index, leaving the list unchanged out of range. -/
def listModify (f : α → α) : Nat → List α → List α
  | _, [] => []
  | 0, a :: as => f a :: as
  | n + 1, a :: as => a :: listModify f n as

/-- Overwrite the element contents of file `i` (its byte length is a property
of the file, not of the write, and is kept). -/
def Sys.setElems (s : Sys) (i : Nat) (v : List Value) : Sys :=
  ⟨listModify (fun fdta => ⟨fdta.byteSize, v⟩) i s.files, s.fds, s.named⟩

def Sys.fileElems (s : Sys) (i : Nat) : List Value :=
  ((s.files.get? i).map FileData.elems).getD []

def Sys.fileSize (s : Sys) (i : Nat) : Nat :=
  ((s.files.get? i).map FileData.byteSize).getD 0

/-- The file an open descriptor refers to; `none` for the -1 sentinel or any
unallocated descriptor. -/
def Sys.fdFile (s : Sys) (fd : Int) : Option Nat :=
  if fd < 0 then none else s.fds.get? fd.toNat

/-- A torch tensor as this module produces it: a dtype-typed, shaped view over
a backing file, remembering the file name its storage carries, if any
(`tensor.untyped_storage().filename`). -/
structure Tensor where
  shape : List Nat
  dtype : DType
  fileId : Nat
  storageFilename : Option String
  deriving DecidableEq, Repr

/-- `shape.numel()` -/
def Tensor.numel (t : Tensor) : Nat := t.shape.prod

def Tensor.data (t : Tensor) (s : Sys) : List Value :=
  s.fileElems t.fileId

/-- `t.zero_()` -/
def Tensor.zero_ (t : Tensor) (s : Sys) : Sys :=
  s.setElems t.fileId ((t.data s).map fun _ => t.dtype.zeroVal)

/-- `t.fill_(x)` -/
def Tensor.fill_ (t : Tensor) (x : Int) (s : Sys) : Sys :=
  s.setElems t.fileId ((t.data s).map fun _ => t.dtype.castPyFloat x)

/-- `dst.copy_(src)`: elementwise copy of the source values into dst's
storage.  The two call sites in this module always have equal dtypes and
element counts, so no dtype conversion arises. -/
def Tensor.copy_ (dst src : Tensor) (s : Sys) : Sys :=
  s.setElems dst.fileId (src.data s)

/-- `buffer[i] = x` (the worked example's single-element write). -/
def Tensor.setItem (t : Tensor) (i : Nat) (x : Int) (s : Sys) : Sys :=
  s.setElems t.fileId ((t.data s).set i (t.dtype.castPyFloat x))

/-- `_FileHandler`: the anonymous file region.  `size` is the byte count the
mmap covers, `fd` the descriptor (-1 is the "not open locally" sentinel that
`_reduce_handler` tests), `mappedFile` the file the buffer maps. -/
structure FileHandler where
  size : Nat
  fd : Int
  mappedFile : Nat
  deriving DecidableEq, Repr

/-- `_FileHandler.__init__(size, fd=-1)`: with the sentinel default,
`tempfile.mkstemp` creates a fresh file with a fresh descriptor (the directory
choice `_choose_dir` does not affect the file's identity and is modelled
separately), `os.unlink` removes its name at once, and `os.ftruncate` sizes it
to `size` bytes; otherwise the caller's already-open descriptor is adopted.
Either way `mmap.mmap(fd, size)` maps the descriptor's file for `size` bytes. -/
def FileHandler.init (size : Nat) (fd : Int) (s : Sys) : Sys × FileHandler :=
  if fd = -1 then
    let fileId := s.files.length
    let newFd : Int := (s.fds.length : Int)
    (⟨s.files ++ [⟨size, []⟩], s.fds ++ [fileId], s.named⟩, ⟨size, newFd, fileId⟩)
  else
    (s, ⟨size, fd, (s.fdFile fd).getD 0⟩)

/-- `_FileHandler._dir_candidates`: a class attribute chosen by
`sys.platform`. -/
def dir_candidates (platform : String) : List String :=
  if platform = "linux" then ["/dev/shm"] else []

/-- The two `os.statvfs` fields `_choose_dir` reads. -/
structure StatVfs where
  f_bavail : Nat
  f_frsize : Nat
  deriving DecidableEq, Repr

/-- The loop of `_FileHandler._choose_dir` over the candidate list. -/
def choose_dir_loop (statvfs : String → StatVfs) (size : Nat) (tmpdir : String) :
    List String → String
  | [] => tmpdir
  | d :: rest =>
      if (statvfs d).f_bavail * (statvfs d).f_frsize ≥ size then d
      else choose_dir_loop statvfs size tmpdir rest

/-- `_FileHandler._choose_dir(size)`: the first candidate directory with
enough free space, else `util.get_temp_dir()` (passed in as `tmpdir`). -/
def choose_dir (platform : String) (statvfs : String → StatVfs)
    (tmpdir : String) (size : Nat) : String :=
  choose_dir_loop statvfs size tmpdir (dir_candidates platform)

/-- `multiprocessing.reduction.DupFd`: duplicate a descriptor for transfer;
the duplicate names the same file.  A bad descriptor is an OS error. -/
def DupFd (fd : Int) (s : Sys) : Sys × Except Err Int :=
  match s.fdFile fd with
  | some fileId =>
      (⟨s.files, s.fds ++ [fileId], s.named⟩, Except.ok (s.fds.length : Int))
  | none => (s, Except.error (Err.osError "Bad file descriptor"))

def unpicklableMsg : String :=
  "Handler is unpicklable because forking was enabled when it was created"

/-- `_reduce_handler` -/
def reduce_handler (handler : FileHandler) (s : Sys) :
    Sys × Except Err (Nat × Int) :=
  if handler.fd = -1 then
    (s, Except.error (Err.valueError unpicklableMsg))
  else
    match DupFd handler.fd s with
    | (s', Except.ok dupfd) => (s', Except.ok (handler.size, dupfd))
    | (s', Except.error e) => (s', Except.error e)

/-- `_rebuild_handler(size, dupfd)`: `dupfd.detach()` yields the received
descriptor, then `_FileHandler(size, detached)`. -/
def rebuild_handler (size : Nat) (detached : Int) (s : Sys) : Sys × FileHandler :=
  FileHandler.init size detached s

/-- `torch.frombuffer(memoryview(handler.buffer), dtype=dtype)`: a 1-D view of
the mapping's bytes reinterpreted as `dtype`, aliasing the region directly (no
copy).  The fresh mapping's contents are unspecified. -/
def frombuffer (handler : FileHandler) (dt : DType) (s : Sys) : Sys × Tensor :=
  let n := handler.size / dt.byteWidth
  (s.setElems handler.mappedFile (List.replicate n Value.undef),
   ⟨[n], dt, handler.mappedFile, none⟩)

/-- `torch.reshape` / `Tensor.view` -/
def reshape (t : Tensor) (shape : List Nat) : Tensor :=
  ⟨shape, t.dtype, t.fileId, t.storageFilename⟩

/-- `torch.from_file(filename, shared=True, dtype=dt, size=n)`: opens or
creates the named file, sized for `n` elements, and maps it shared, so two
mappings of one path alias one file.  (`layout`, `device`, `pin_memory` and
`requires_grad` are forwarded by the caller but do not change the behaviour
this module relies on.) -/
def from_file (filename : String) (dt : DType) (n : Nat) (s : Sys) : Sys × Tensor :=
  match s.named.lookup filename with
  | some fileId =>
      let old := s.fileElems fileId
      let elems := old.take n ++ List.replicate (n - old.length) Value.undef
      (⟨listModify (fun _ => ⟨dt.byteWidth * n, elems⟩) fileId s.files,
        s.fds, s.named⟩,
       ⟨[n], dt, fileId, some filename⟩)
  | none =>
      let fileId := s.files.length
      (⟨s.files ++ [⟨dt.byteWidth * n, List.replicate n Value.undef⟩], s.fds,
        s.named ++ [(filename, fileId)]⟩,
       ⟨[n], dt, fileId, some filename⟩)

/-- The characters before the first colon. -/
def deviceTypeChars : List Char → List Char
  | [] => []
  | c :: cs => if c = ':' then [] else c :: deviceTypeChars cs

/-- `torch.device(d).type`: the device string up to the colon (the source's
`torch.device` parse, re-expressed by recursion on the characters so that it
computes by reduction). -/
def deviceType (d : String) : String :=
  ⟨deviceTypeChars d.data⟩

/-- The anonymous branch of `empty_like` after the byte size is computed:
construct the `_FileHandler`, then check `layout` and `pin_memory`, then view
the buffer — in that source order. -/
def empty_like_build (dt : DType) (shape : List Nat) (layout : Option Unit)
    (pin_memory : Bool) (size : Nat) (s : Sys) : Sys × Except Err Tensor :=
  let p := FileHandler.init size (-1) s
  if layout.isSome then (p.1, Except.error (Err.valueError ""))
  else if pin_memory then (p.1, Except.error (Err.valueError ""))
  else
    let q := frombuffer p.2 dt p.1
    (q.1, Except.ok (reshape q.2 shape))

def complexMsg : String :=
  "Complex-valued tensors are not supported by memory-mapped tensors."

/-- `empty_like(input, dtype=…, layout=…, device=…, pin_memory=…,
filename=…)`: creates an empty tensor on disk.  `memory_format` and
`requires_grad` are accepted by the source and ignored by everything the
properties touch, so they are omitted here. -/
def empty_like (input : Tensor) (dtype : Option DType) (layout : Option Unit)
    (device : Option String) (pin_memory : Bool) (filename : Option String)
    (s : Sys) : Sys × Except Err Tensor :=
  let shape := input.shape
  let dt := dtype.getD input.dtype
  if (device.map (fun d => deviceType d != "cpu")).getD false then
    (s, Except.error (Err.valueError ""))
  else
    match filename with
    | none =>
        if dt.is_floating_point then
          empty_like_build dt shape layout pin_memory
            (dt.finfoBits / 8 * shape.prod) s
        else if dt.is_complex then
          (s, Except.error (Err.valueError complexMsg))
        else if dt = DType.bool then
          empty_like_build dt shape layout pin_memory shape.prod s
        else
          empty_like_build dt shape layout pin_memory
            (dt.iinfoBits / 8 * shape.prod) s
    | some f =>
        let q := from_file f dt shape.prod s
        (q.1, Except.ok (reshape q.2 input.shape))

/-- `zeros_like`: `empty_like(...).zero_()` -/
def zeros_like (input : Tensor) (dtype : Option DType) (layout : Option Unit)
    (device : Option String) (pin_memory : Bool) (filename : Option String)
    (s : Sys) : Sys × Except Err Tensor :=
  match empty_like input dtype layout device pin_memory filename s with
  | (s', Except.ok t) => (t.zero_ s', Except.ok t)
  | (s', Except.error e) => (s', Except.error e)

/-- `ones_like`: `empty_like(...).fill_(1.0)` -/
def ones_like (input : Tensor) (dtype : Option DType) (layout : Option Unit)
    (device : Option String) (pin_memory : Bool) (filename : Option String)
    (s : Sys) : Sys × Except Err Tensor :=
  match empty_like input dtype layout device pin_memory filename s with
  | (s', Except.ok t) => (t.fill_ 1 s', Except.ok t)
  | (s', Except.error e) => (s', Except.error e)

def conflictMsg : String :=
  "A filename was provided but the tensor already has a file associated. To copy the tensor onto the new location, pass copy_existing=True."

/-- `from_tensor(tensor, filename=…, copy_existing=…)`: creates a tensor on
disk with the same content as the input tensor. -/
def from_tensor (tensor : Tensor) (filename : Option String)
    (copy_existing : Bool) (s : Sys) : Sys × Except Err Tensor :=
  if filename.isSome && !copy_existing && tensor.storageFilename.isSome then
    (s, Except.error (Err.runtimeError conflictMsg))
  else
    match empty_like tensor none none none false filename s with
    | (s', Except.ok t) => (Tensor.copy_ t tensor s', Except.ok t)
    | (s', Except.error e) => (s', Except.error e)

/-! ### List and state helper lemmas -/

theorem get?_listModify (f : α → α) (i j : Nat) (l : List α) :
    (listModify f i l)[j]? = if j = i then (l[j]?).map f else l[j]? := by
  induction l generalizing i j with
  | nil => cases i <;> cases j <;> simp [listModify]
  | cons a as ih =>
      cases i with
      | zero => cases j <;> simp [listModify]
      | succ n => cases j <;> simp [listModify, ih]

theorem get?_append_one (l : List α) (a : α) (j : Nat) :
    (l ++ [a])[j]? = if j = l.length then some a else l[j]? := by
  induction l generalizing j with
  | nil => cases j <;> simp
  | cons b bs ih => cases j <;> simp [ih]

theorem listModify_append_length (f : α → α) (l : List α) (a : α) :
    listModify f l.length (l ++ [a]) = l ++ [f a] := by
  induction l with
  | nil => simp [listModify]
  | cons b bs ih => simp [listModify, ih]

theorem fileElems_setElems_self (s : Sys) (i : Nat) (v : List Value)
    (h : i < s.files.length) : (s.setElems i v).fileElems i = v := by
  simp [Sys.setElems, Sys.fileElems, get?_listModify, List.getElem?_eq_getElem h]

theorem fileElems_setElems_other (s : Sys) (i j : Nat) (v : List Value)
    (h : j ≠ i) : (s.setElems i v).fileElems j = s.fileElems j := by
  simp [Sys.setElems, Sys.fileElems, get?_listModify, h]

theorem fileSize_setElems (s : Sys) (i j : Nat) (v : List Value) :
    (s.setElems i v).fileSize j = s.fileSize j := by
  by_cases h : j = i
  · subst h
    cases hx : s.files[j]? <;>
      simp [Sys.setElems, Sys.fileSize, get?_listModify, hx]
  · simp [Sys.setElems, Sys.fileSize, get?_listModify, h]

theorem fileElems_mk_append_last (l : List FileData) (fdta : FileData)
    (fds : List Nat) (nm : List (String × Nat)) :
    Sys.fileElems ⟨l ++ [fdta], fds, nm⟩ l.length = fdta.elems := by
  simp [Sys.fileElems, get?_append_one]

theorem fileElems_mk_append_other (l : List FileData) (fdta : FileData)
    (fds fds' : List Nat) (nm nm' : List (String × Nat)) (j : Nat)
    (h : j ≠ l.length) :
    Sys.fileElems ⟨l ++ [fdta], fds, nm⟩ j = Sys.fileElems ⟨l, fds', nm'⟩ j := by
  simp [Sys.fileElems, get?_append_one, h]

/-! ### The anonymous creation path, once and for all -/

theorem empty_like_build_spec (dt : DType) (shape : List Nat) (size : Nat)
    (s : Sys) :
    empty_like_build dt shape none false size s =
      (⟨s.files ++ [⟨size, List.replicate (size / dt.byteWidth) Value.undef⟩],
        s.fds ++ [s.files.length], s.named⟩,
       Except.ok ⟨shape, dt, s.files.length, none⟩) := by
  simp [empty_like_build, FileHandler.init, frombuffer, reshape, Sys.setElems,
    listModify_append_length]

theorem empty_like_anon_spec (input : Tensor) (od : Option DType) (s : Sys)
    (h : (od.getD input.dtype).is_complex = false) :
    empty_like input od none none false none s =
      (⟨s.files ++ [⟨(od.getD input.dtype).byteWidth * input.shape.prod,
          List.replicate input.shape.prod Value.undef⟩],
        s.fds ++ [s.files.length], s.named⟩,
       Except.ok ⟨input.shape, od.getD input.dtype, s.files.length, none⟩) := by
  simp only [empty_like]
  generalize hdt : od.getD input.dtype = dt at h ⊢
  cases dt <;>
    simp_all [empty_like_build_spec, DType.is_floating_point, DType.is_complex,
      DType.byteWidth, DType.finfoBits, DType.iinfoBits,
      Nat.mul_div_cancel_left]

theorem listModify_length (f : α → α) (i : Nat) (l : List α) :
    (listModify f i l).length = l.length := by
  induction l generalizing i with
  | nil => cases i <;> simp [listModify]
  | cons a as ih => cases i <;> simp [listModify, ih]

theorem fileSize_mk_append_last (l : List FileData) (fdta : FileData)
    (fds : List Nat) (nm : List (String × Nat)) :
    Sys.fileSize ⟨l ++ [fdta], fds, nm⟩ l.length = fdta.byteSize := by
  simp [Sys.fileSize, get?_append_one]

theorem empty_like_build_fail_spec (dt : DType) (shape : List Nat)
    (layout : Option Unit) (pin : Bool) (size : Nat) (s : Sys)
    (h : layout.isSome = true ∨ pin = true) :
    empty_like_build dt shape layout pin size s =
      (⟨s.files ++ [⟨size, []⟩], s.fds ++ [s.files.length], s.named⟩,
       Except.error (Err.valueError "")) := by
  rcases h with h | h
  · simp [empty_like_build, FileHandler.init, h]
  · subst h
    cases layout <;> simp [empty_like_build, FileHandler.init]

theorem zeros_like_anon_spec (input : Tensor) (od : Option DType) (s : Sys)
    (h : (od.getD input.dtype).is_complex = false) :
    zeros_like input od none none false none s =
      (⟨s.files ++ [⟨(od.getD input.dtype).byteWidth * input.shape.prod,
          List.replicate input.shape.prod (od.getD input.dtype).zeroVal⟩],
        s.fds ++ [s.files.length], s.named⟩,
       Except.ok ⟨input.shape, od.getD input.dtype, s.files.length, none⟩) := by
  simp only [zeros_like, empty_like_anon_spec input od s h]
  simp [Tensor.zero_, Tensor.data, fileElems_mk_append_last, Sys.setElems,
    listModify_append_length, Sys.fileElems, get?_append_one]

theorem ones_like_anon_spec (input : Tensor) (od : Option DType) (s : Sys)
    (h : (od.getD input.dtype).is_complex = false) :
    ones_like input od none none false none s =
      (⟨s.files ++ [⟨(od.getD input.dtype).byteWidth * input.shape.prod,
          List.replicate input.shape.prod
            ((od.getD input.dtype).castPyFloat 1)⟩],
        s.fds ++ [s.files.length], s.named⟩,
       Except.ok ⟨input.shape, od.getD input.dtype, s.files.length, none⟩) := by
  simp only [ones_like, empty_like_anon_spec input od s h]
  simp [Tensor.fill_, Tensor.data, fileElems_mk_append_last, Sys.setElems,
    listModify_append_length, Sys.fileElems, get?_append_one]

theorem choose_dir_loop_spec (statvfs : String → StatVfs) (size : Nat)
    (tmpdir : String) (l : List String) :
    choose_dir_loop statvfs size tmpdir l =
      ((l.find? fun d =>
          decide (size ≤ (statvfs d).f_bavail * (statvfs d).f_frsize)).getD
        tmpdir) := by
  induction l with
  | nil => simp [choose_dir_loop]
  | cons d rest ih =>
      by_cases h : size ≤ (statvfs d).f_bavail * (statvfs d).f_frsize <;>
        simp [choose_dir_loop, List.find?_cons, h, ih, ge_iff_le]

theorem reduce_not_usage_err (h : FileHandler) (s : Sys) (hfd : h.fd ≠ -1) :
    (reduce_handler h s).2 ≠ Except.error (Err.valueError unpicklableMsg) := by
  simp only [reduce_handler, if_neg hfd]
  cases hx : s.fdFile h.fd <;> simp [DupFd, hx]

/-! ### Claim theorems -/

/-- Claim C2, counterexample: with a filename supplied, `empty_like` on a
complex dtype does not raise the unsupported-type error — the complex check
sits only on the anonymous (no-filename) branch, and the named-file branch
hands the dtype straight to the host's file-mapping constructor.  The call
returns a tensor. -/
theorem C2_counterexample_complex_with_filename :
    (empty_like ⟨[4], DType.complex64, 0, none⟩ none none none false
        (some "t.bin") emptySys).2 =
      Except.ok ⟨[4], DType.complex64, 0, some "t.bin"⟩ := by decide

/-- Claim C2 (amended): for every shape and complex dtype, creation with NO
path/filename fails with the unsupported-type error, for uninitialized,
zeroed and one-filled creation alike, whatever layout and pinning are
requested; with a filename the module performs no complex check. -/
theorem C2_complex_rejected_anonymous (input : Tensor) (dt : DType)
    (layout : Option Unit) (pin : Bool) (s : Sys) (hc : dt.is_complex = true) :
    empty_like input (some dt) layout none pin none s =
        (s, Except.error (Err.valueError complexMsg)) ∧
      zeros_like input (some dt) layout none pin none s =
        (s, Except.error (Err.valueError complexMsg)) ∧
      ones_like input (some dt) layout none pin none s =
        (s, Except.error (Err.valueError complexMsg)) := by
  cases dt <;> simp_all [empty_like, zeros_like, ones_like,
    DType.is_floating_point, DType.is_complex]

/-- Witness for C2's amended theorem at complex64, shape [3]. -/
theorem C2_complex_rejected_anonymous_witness :
    DType.complex64.is_complex = true ∧
      zeros_like ⟨[3], DType.float32, 0, none⟩ (some DType.complex64) none none
          false none emptySys =
        (emptySys, Except.error (Err.valueError complexMsg)) :=
  ⟨by decide,
   (C2_complex_rejected_anonymous ⟨[3], DType.float32, 0, none⟩ DType.complex64
     none false emptySys (by decide)).2.1⟩

/-- Claim C3: for every supported (non-complex) dtype and shape, `zeros_like`
without a filename returns a buffer of element_count(shape) elements, each the
dtype's zero; and the worked example: shape [4] with float32 gives a 16-byte,
4-element all-0.0 buffer, and after writing 5.0 at index 2 re-reading yields
[0.0, 0.0, 5.0, 0.0]. -/
theorem C3_zeros_like_all_zero :
    (∀ (input : Tensor) (dt : DType) (s : Sys), dt.is_complex = false →
      (zeros_like input (some dt) none none false none s).2 =
          Except.ok ⟨input.shape, dt, s.files.length, none⟩ ∧
        (zeros_like input (some dt) none none false none s).1.fileElems
            s.files.length =
          List.replicate input.shape.prod dt.zeroVal) ∧
      ((zeros_like ⟨[4], DType.float32, 0, none⟩ none none none false none
          emptySys).2 = Except.ok ⟨[4], DType.float32, 0, none⟩ ∧
        (zeros_like ⟨[4], DType.float32, 0, none⟩ none none none false none
          emptySys).1.fileSize 0 = 16 ∧
        (zeros_like ⟨[4], DType.float32, 0, none⟩ none none none false none
          emptySys).1.fileElems 0 =
          [Value.floatV 0, Value.floatV 0, Value.floatV 0, Value.floatV 0] ∧
        (Tensor.setItem ⟨[4], DType.float32, 0, none⟩ 2 5
            (zeros_like ⟨[4], DType.float32, 0, none⟩ none none none false none
              emptySys).1).fileElems 0 =
          [Value.floatV 0, Value.floatV 0, Value.floatV 5, Value.floatV 0]) := by
  constructor
  · intro input dt s h
    rw [zeros_like_anon_spec input (some dt) s h]
    simp [fileElems_mk_append_last]
  · decide

/-- Witness for C3 at int32, shape [2]. -/
theorem C3_zeros_like_all_zero_witness :
    DType.int32.is_complex = false ∧
      (zeros_like ⟨[2], DType.float32, 0, none⟩ (some DType.int32) none none
          false none emptySys).2 =
        Except.ok ⟨[2], DType.int32, 0, none⟩ ∧
      (zeros_like ⟨[2], DType.float32, 0, none⟩ (some DType.int32) none none
          false none emptySys).1.fileElems 0 =
        List.replicate 2 DType.int32.zeroVal :=
  ⟨by decide,
   C3_zeros_like_all_zero.1 ⟨[2], DType.float32, 0, none⟩ DType.int32 emptySys
     (by decide)⟩

/-- Claim C4: for every supported (non-complex) dtype and shape, `ones_like`
without a filename fills every element with the value one as cast into the
dtype — `True` for boolean, `1` for the integer dtypes, `1.0` for the floating
ones — obtained by `fill_(1.0)` after uninitialized creation. -/
theorem C4_ones_like_all_one :
    (∀ (input : Tensor) (dt : DType) (s : Sys), dt.is_complex = false →
      (ones_like input (some dt) none none false none s).2 =
          Except.ok ⟨input.shape, dt, s.files.length, none⟩ ∧
        (ones_like input (some dt) none none false none s).1.fileElems
            s.files.length =
          List.replicate input.shape.prod (dt.castPyFloat 1)) ∧
      DType.bool.castPyFloat 1 = Value.boolV true ∧
      DType.int64.castPyFloat 1 = Value.intV 1 ∧
      DType.uint8.castPyFloat 1 = Value.intV 1 ∧
      DType.float32.castPyFloat 1 = Value.floatV 1 := by
  refine ⟨?_, by decide, by decide, by decide, by decide⟩
  intro input dt s h
  rw [ones_like_anon_spec input (some dt) s h]
  simp [fileElems_mk_append_last]

/-- Witness for C4 at bool, shape [3]. -/
theorem C4_ones_like_all_one_witness :
    DType.bool.is_complex = false ∧
      (ones_like ⟨[3], DType.float32, 0, none⟩ (some DType.bool) none none
          false none emptySys).2 =
        Except.ok ⟨[3], DType.bool, 0, none⟩ ∧
      (ones_like ⟨[3], DType.float32, 0, none⟩ (some DType.bool) none none
          false none emptySys).1.fileElems 0 =
        List.replicate 3 (Value.boolV true) :=
  ⟨by decide,
   C4_ones_like_all_one.1 ⟨[3], DType.float32, 0, none⟩ DType.bool emptySys
     (by decide)⟩

/-- Claim C7: `_choose_dir` returns the first of the platform's preferred
fast-storage directories (`["/dev/shm"]` on Linux, empty elsewhere) whose free
space `f_bavail * f_frsize` is at least the requested size, and falls back to
the host's generic temporary directory when no candidate qualifies. -/
theorem C7_choose_dir_first_fit (platform : String)
    (statvfs : String → StatVfs) (tmpdir : String) (size : Nat) :
    choose_dir platform statvfs tmpdir size =
        (((dir_candidates platform).find? fun d =>
            decide (size ≤ (statvfs d).f_bavail * (statvfs d).f_frsize)).getD
          tmpdir) ∧
      (∀ p, dir_candidates p = if p = "linux" then ["/dev/shm"] else []) :=
  ⟨choose_dir_loop_spec statvfs size tmpdir (dir_candidates platform),
   fun _ => rfl⟩

/-- Claim C6: for every supported non-complex dtype and shape, anonymous
creation allocates a backing region of exactly element_count(shape) ×
byte_width(dtype) bytes — byte_width being bits/8 for floating dtypes, 1 for
boolean, bits/8 for integer dtypes — and returns a view with exactly the
requested shape, aliasing the fresh region (its contents stay the mapping's
unspecified bytes; every pre-existing file is untouched, so nothing is
copied). -/
theorem C6_anon_region_geometry (input : Tensor) (dt : DType) (s : Sys)
    (h : dt.is_complex = false) :
    (empty_like input (some dt) none none false none s).2 =
        Except.ok ⟨input.shape, dt, s.files.length, none⟩ ∧
      (empty_like input (some dt) none none false none s).1.fileSize
          s.files.length = dt.byteWidth * input.shape.prod ∧
      (dt.is_floating_point = true → dt.byteWidth = dt.finfoBits / 8) ∧
      (dt = DType.bool → dt.byteWidth = 1) ∧
      (dt.is_floating_point = false → dt ≠ DType.bool →
        dt.byteWidth = dt.iinfoBits / 8) ∧
      (∀ j, j ≠ s.files.length →
        (empty_like input (some dt) none none false none s).1.fileElems j =
          s.fileElems j) ∧
      (empty_like input (some dt) none none false none s).1.fileElems
          s.files.length = List.replicate input.shape.prod Value.undef := by
  rw [empty_like_anon_spec input (some dt) s h]
  refine ⟨rfl, ?_, ?_, ?_, ?_, ?_, ?_⟩
  · exact fileSize_mk_append_last s.files _ _ _
  · cases dt <;> simp_all [DType.byteWidth, DType.finfoBits,
      DType.is_floating_point]
  · intro hb
    subst hb
    rfl
  · cases dt <;> simp_all [DType.byteWidth, DType.iinfoBits,
      DType.is_floating_point, DType.is_complex]
  · intro j hj
    exact fileElems_mk_append_other s.files _ _ s.fds _ s.named j hj
  · exact fileElems_mk_append_last s.files _ _ _

/-- Witness for C6 at uint8, shape [2, 3]. -/
theorem C6_anon_region_geometry_witness :
    DType.uint8.is_complex = false ∧
      (empty_like ⟨[2, 3], DType.float32, 0, none⟩ (some DType.uint8) none none
          false none emptySys).2 =
        Except.ok ⟨[2, 3], DType.uint8, 0, none⟩ ∧
      (empty_like ⟨[2, 3], DType.float32, 0, none⟩ (some DType.uint8) none none
          false none emptySys).1.fileSize 0 = 6 :=
  ⟨by decide,
   (C6_anon_region_geometry ⟨[2, 3], DType.float32, 0, none⟩ DType.uint8
     emptySys (by decide)).1,
   (C6_anon_region_geometry ⟨[2, 3], DType.float32, 0, none⟩ DType.uint8
     emptySys (by decide)).2.1⟩

/-- Claim C5: duplicating a (non-complex, valid) source buffer with no path
returns a buffer of the same shape and dtype backed by a distinct fresh
region, whose elements equal the source's at the moment of duplication; the
source's storage is untouched, and later single-element writes to either
buffer leave the other buffer's contents unchanged. -/
theorem C5_from_tensor_fresh_copy (t : Tensor) (ce : Bool) (s : Sys)
    (hf : t.fileId < s.files.length) (hc : t.dtype.is_complex = false) :
    (from_tensor t none ce s).2 =
        Except.ok ⟨t.shape, t.dtype, s.files.length, none⟩ ∧
      s.files.length ≠ t.fileId ∧
      (from_tensor t none ce s).1.fileElems s.files.length = t.data s ∧
      (from_tensor t none ce s).1.fileElems t.fileId = t.data s ∧
      (∀ i x,
        (Tensor.setItem ⟨t.shape, t.dtype, s.files.length, none⟩ i x
            (from_tensor t none ce s).1).fileElems t.fileId =
          (from_tensor t none ce s).1.fileElems t.fileId) ∧
      (∀ i x,
        (Tensor.setItem t i x (from_tensor t none ce s).1).fileElems
            s.files.length =
          (from_tensor t none ce s).1.fileElems s.files.length) := by
  have hne : t.fileId ≠ s.files.length := by omega
  have h2 : Tensor.data t
      ⟨s.files ++ [⟨t.dtype.byteWidth * t.shape.prod,
          List.replicate t.shape.prod Value.undef⟩],
        s.fds ++ [s.files.length], s.named⟩ = t.data s := by
    simp [Tensor.data, Sys.fileElems, get?_append_one, hne]
  have hft : from_tensor t none ce s =
      (⟨s.files ++ [⟨t.dtype.byteWidth * t.shape.prod, t.data s⟩],
        s.fds ++ [s.files.length], s.named⟩,
       Except.ok ⟨t.shape, t.dtype, s.files.length, none⟩) := by
    simp only [from_tensor, Option.isSome_none, Bool.false_and, Bool.and_false,
      Bool.false_eq_true, if_false]
    rw [empty_like_anon_spec t none s hc]
    simp only [Option.getD_none, Tensor.copy_]
    rw [h2]
    simp [Sys.setElems, listModify_append_length]
  rw [hft]
  refine ⟨rfl, fun he => hne he.symm, ?_, ?_, ?_, ?_⟩
  · exact fileElems_mk_append_last s.files _ _ _
  · simpa using
      fileElems_mk_append_other s.files _ _ s.fds _ s.named t.fileId hne
  · intro i x
    rw [Tensor.setItem]
    exact fileElems_setElems_other _ s.files.length t.fileId _ hne
  · intro i x
    rw [Tensor.setItem]
    refine fileElems_setElems_other _ t.fileId s.files.length _ ?_
    exact fun he => hne he.symm

/-- Witness for C5: a one-file state holding [7, 9] as int32. -/
theorem C5_from_tensor_fresh_copy_witness :
    (0 : Nat) < 1 ∧ DType.int32.is_complex = false ∧
      (from_tensor ⟨[2], DType.int32, 0, none⟩ none false
          ⟨[⟨8, [Value.intV 7, Value.intV 9]⟩], [0], []⟩).2 =
        Except.ok ⟨[2], DType.int32, 1, none⟩ ∧
      (from_tensor ⟨[2], DType.int32, 0, none⟩ none false
          ⟨[⟨8, [Value.intV 7, Value.intV 9]⟩], [0], []⟩).1.fileElems 1 =
        Tensor.data ⟨[2], DType.int32, 0, none⟩
          ⟨[⟨8, [Value.intV 7, Value.intV 9]⟩], [0], []⟩ := by
  refine ⟨by decide, by decide, ?_, ?_⟩
  · exact (C5_from_tensor_fresh_copy ⟨[2], DType.int32, 0, none⟩ false
      ⟨[⟨8, [Value.intV 7, Value.intV 9]⟩], [0], []⟩ (by decide) (by decide)).1
  · exact (C5_from_tensor_fresh_copy ⟨[2], DType.int32, 0, none⟩ false
      ⟨[⟨8, [Value.intV 7, Value.intV 9]⟩], [0], []⟩ (by decide)
      (by decide)).2.2.1

/-- Claim C1: `from_tensor` with a filename and `copy_existing=False` raises
the conflict error whenever the source tensor's storage already carries a file
name — the check compares against no particular name, so a different file and
the very same file (the §8 example) both raise; with `copy_existing=True` the
call succeeds and overwrites the named file with the source's values. -/
theorem C1_from_tensor_conflict :
    (∀ (t : Tensor) (p : String) (s : Sys), t.storageFilename.isSome = true →
      from_tensor t (some p) false s =
        (s, Except.error (Err.runtimeError conflictMsg))) ∧
      (∀ (t : Tensor) (p : String) (s : Sys),
        t.storageFilename = some p →
        s.named.lookup p = some t.fileId →
        t.fileId < s.files.length →
        (s.fileElems t.fileId).length = t.shape.prod →
        (from_tensor t (some p) true s).2 =
            Except.ok ⟨t.shape, t.dtype, t.fileId, some p⟩ ∧
          (from_tensor t (some p) true s).1.fileElems t.fileId =
            s.fileElems t.fileId) := by
  constructor
  · intro t p s hs
    simp [from_tensor, hs]
  · intro t p s hsf hlk hflen hlen
    have hold : (s.fileElems t.fileId).take t.shape.prod ++
        List.replicate (t.shape.prod - (s.fileElems t.fileId).length)
          Value.undef = s.fileElems t.fileId := by
      rw [← hlen]
      simp
    have hdat : Tensor.data t
        ⟨listModify
            (fun _ => ⟨t.dtype.byteWidth * t.shape.prod, s.fileElems t.fileId⟩)
            t.fileId s.files, s.fds, s.named⟩ = s.fileElems t.fileId := by
      simp [Tensor.data, Sys.fileElems, get?_listModify,
        List.getElem?_eq_getElem hflen]
    have hft : from_tensor t (some p) true s =
        (⟨listModify
            (fun fdta => ⟨fdta.byteSize, s.fileElems t.fileId⟩) t.fileId
            (listModify
              (fun _ =>
                ⟨t.dtype.byteWidth * t.shape.prod, s.fileElems t.fileId⟩)
              t.fileId s.files),
          s.fds, s.named⟩,
         Except.ok ⟨t.shape, t.dtype, t.fileId, some p⟩) := by
      simp only [from_tensor, Option.isSome_some, Bool.not_true,
        Bool.and_false, Bool.false_and, Bool.false_eq_true, if_false]
      simp [empty_like, from_file, hlk, hold, reshape, Tensor.copy_,
        Sys.setElems, hdat]
    rw [hft]
    refine ⟨rfl, ?_⟩
    have hlt : t.fileId <
        (listModify
          (fun _ => ⟨t.dtype.byteWidth * t.shape.prod, s.fileElems t.fileId⟩)
          t.fileId s.files).length := by
      rw [listModify_length]
      exact hflen
    simp [Sys.fileElems, get?_listModify, List.getElem?_eq_getElem hflen]

/-- Witness for C1: a buffer backed by "/tmp/x.bin" raises with
`copy_existing=False` and succeeds onto the same path with
`copy_existing=True`. -/
theorem C1_from_tensor_conflict_witness :
    (Tensor.storageFilename ⟨[4], DType.float32, 0, some "/tmp/x.bin"⟩).isSome =
        true ∧
      from_tensor ⟨[4], DType.float32, 0, some "/tmp/x.bin"⟩
          (some "/tmp/x.bin") false
          ⟨[⟨16, [Value.floatV 0, Value.floatV 0, Value.floatV 5,
            Value.floatV 0]⟩], [], [("/tmp/x.bin", 0)]⟩ =
        (⟨[⟨16, [Value.floatV 0, Value.floatV 0, Value.floatV 5,
            Value.floatV 0]⟩], [], [("/tmp/x.bin", 0)]⟩,
         Except.error (Err.runtimeError conflictMsg)) ∧
      (from_tensor ⟨[4], DType.float32, 0, some "/tmp/x.bin"⟩
          (some "/tmp/x.bin") true
          ⟨[⟨16, [Value.floatV 0, Value.floatV 0, Value.floatV 5,
            Value.floatV 0]⟩], [], [("/tmp/x.bin", 0)]⟩).2 =
        Except.ok ⟨[4], DType.float32, 0, some "/tmp/x.bin"⟩ := by
  refine ⟨by decide, ?_, ?_⟩
  · exact C1_from_tensor_conflict.1 ⟨[4], DType.float32, 0, some "/tmp/x.bin"⟩
      "/tmp/x.bin"
      ⟨[⟨16, [Value.floatV 0, Value.floatV 0, Value.floatV 5, Value.floatV 0]⟩],
        [], [("/tmp/x.bin", 0)]⟩ (by decide)
  · exact (C1_from_tensor_conflict.2 ⟨[4], DType.float32, 0, some "/tmp/x.bin"⟩
      "/tmp/x.bin"
      ⟨[⟨16, [Value.floatV 0, Value.floatV 0, Value.floatV 5, Value.floatV 0]⟩],
        [], [("/tmp/x.bin", 0)]⟩ (by decide) (by decide) (by decide)
      (by decide)).1

/-- Claim C8: `_reduce_handler` raises the usage error exactly on the -1
"not open locally" sentinel; on a handler whose descriptor is open it returns
the pair (size, duplicated descriptor), and `_rebuild_handler` reconstructs
from that pair a handler of the same size mapping the same underlying file. -/
theorem C8_reduce_handler_spec (h : FileHandler) (s : Sys) :
    (h.fd = -1 →
      reduce_handler h s = (s, Except.error (Err.valueError unpicklableMsg))) ∧
      (h.fd ≠ -1 → s.fdFile h.fd = some h.mappedFile →
        reduce_handler h s =
            (⟨s.files, s.fds ++ [h.mappedFile], s.named⟩,
             Except.ok (h.size, (s.fds.length : Int))) ∧
          (rebuild_handler h.size (s.fds.length : Int)
                ⟨s.files, s.fds ++ [h.mappedFile], s.named⟩).2 =
            ⟨h.size, (s.fds.length : Int), h.mappedFile⟩) := by
  constructor
  · intro hfd
    simp [reduce_handler, hfd]
  · intro hfd hmap
    constructor
    · simp [reduce_handler, hfd, DupFd, hmap]
    · rw [rebuild_handler, FileHandler.init,
        if_neg (by omega : ¬((s.fds.length : Int) = -1))]
      have hnn : ¬((s.fds.length : Int) < 0) := by omega
      simp [Sys.fdFile, get?_append_one, hnn]

/-- Witness for C8: both the sentinel branch and a live descriptor. -/
theorem C8_reduce_handler_spec_witness :
    reduce_handler ⟨16, -1, 0⟩ ⟨[⟨16, []⟩], [0], []⟩ =
        (⟨[⟨16, []⟩], [0], []⟩, Except.error (Err.valueError unpicklableMsg)) ∧
      reduce_handler ⟨16, 0, 0⟩ ⟨[⟨16, []⟩], [0], []⟩ =
        (⟨[⟨16, []⟩], [0, 0], []⟩, Except.ok (16, 1)) :=
  ⟨(C8_reduce_handler_spec ⟨16, -1, 0⟩ ⟨[⟨16, []⟩], [0], []⟩).1 (by decide),
   ((C8_reduce_handler_spec ⟨16, 0, 0⟩ ⟨[⟨16, []⟩], [0], []⟩).2 (by decide)
     (by decide)).1⟩

/-- Claim C9, counterexample: requesting an unsupported layout with no path
returns the configuration error — but only after the anonymous backing region
was already constructed, so a freshly allocated backing file is left behind in
the state, contradicting "leaves no partially constructed … backing state
behind". -/
theorem C9_counterexample_layout_leaks_region :
    (empty_like ⟨[4], DType.float32, 0, none⟩ none (some ()) none false none
        emptySys).2 = Except.error (Err.valueError "") ∧
      (empty_like ⟨[4], DType.float32, 0, none⟩ none (some ()) none false none
        emptySys).1.files.length = 1 := by decide

/-- Claim C9 (amended): every failing construction surfaces its error
synchronously and returns no buffer; the device, complex-dtype and
duplicate-conflict errors leave the backing state exactly as it was, but an
unsupported layout or pinning request without a path is detected only after
the anonymous backing region is allocated, so that one region is left behind
(to be reclaimed by finalization). -/
theorem C9_failure_modes :
    (∀ (input : Tensor) (od : Option DType) (lay : Option Unit) (d : String)
        (pin : Bool) (fn : Option String) (s : Sys), deviceType d ≠ "cpu" →
      empty_like input od lay (some d) pin fn s =
        (s, Except.error (Err.valueError ""))) ∧
      (∀ (input : Tensor) (dt : DType) (lay : Option Unit) (pin : Bool)
          (s : Sys), dt.is_complex = true →
        empty_like input (some dt) lay none pin none s =
          (s, Except.error (Err.valueError complexMsg))) ∧
      (∀ (t : Tensor) (p : String) (s : Sys), t.storageFilename.isSome = true →
        from_tensor t (some p) false s =
          (s, Except.error (Err.runtimeError conflictMsg))) ∧
      (∀ (input : Tensor) (dt : DType) (pin : Bool) (s : Sys),
        dt.is_complex = false →
        (empty_like input (some dt) (some ()) none pin none s).2 =
            Except.error (Err.valueError "") ∧
          (empty_like input (some dt) (some ()) none pin none s).1.files.length
            = s.files.length + 1) ∧
      (∀ (input : Tensor) (dt : DType) (s : Sys), dt.is_complex = false →
        (empty_like input (some dt) none none true none s).2 =
            Except.error (Err.valueError "") ∧
          (empty_like input (some dt) none none true none s).1.files.length =
            s.files.length + 1) := by
  refine ⟨?_, ?_, ?_, ?_, ?_⟩
  · intro input od lay d pin fn s hd
    simp [empty_like, hd]
  · intro input dt lay pin s hc
    cases dt <;> simp_all [empty_like, DType.is_floating_point,
      DType.is_complex]
  · intro t p s hs
    simp [from_tensor, hs]
  · intro input dt pin s hc
    cases dt <;>
      simp_all [empty_like, DType.is_floating_point, DType.is_complex,
        empty_like_build_fail_spec]
  · intro input dt s hc
    cases dt <;>
      simp_all [empty_like, DType.is_floating_point, DType.is_complex,
        empty_like_build_fail_spec]

/-- Witness for C9's amended theorem: a CUDA device request and a pinned
anonymous request, both on concrete inputs. -/
theorem C9_failure_modes_witness :
    deviceType "cuda:0" ≠ "cpu" ∧
      empty_like ⟨[4], DType.float32, 0, none⟩ none none (some "cuda:0") false
          none emptySys =
        (emptySys, Except.error (Err.valueError "")) ∧
      (empty_like ⟨[4], DType.float32, 0, none⟩ (some DType.float32) none none
          true none emptySys).1.files.length = 0 + 1 := by
  refine ⟨by decide, ?_, ?_⟩
  · exact C9_failure_modes.1 ⟨[4], DType.float32, 0, none⟩ none none "cuda:0"
      false none emptySys (by decide)
  · exact (C9_failure_modes.2.2.2.2 ⟨[4], DType.float32, 0, none⟩
      DType.float32 emptySys (by decide)).2

/-- Claim C10: `_FileHandler.__init__` never yields the -1 sentinel: with the
default fd=-1 it takes a fresh descriptor from temp-file creation (and sizes
the fresh file to exactly `size` bytes under a mapping of `size` bytes),
otherwise it adopts the caller's descriptor; hence the usage-error branch of
`_reduce_handler` cannot fire on a handler built by the constructor. -/
theorem C10_constructed_handler_fd (size : Nat) (fd : Int) (s : Sys) :
    (FileHandler.init size fd s).2.fd ≠ -1 ∧
      (FileHandler.init size fd s).2.size = size ∧
      (fd = -1 →
        (FileHandler.init size fd s).2.fd = (s.fds.length : Int) ∧
          (FileHandler.init size fd s).1.fileSize
              (FileHandler.init size fd s).2.mappedFile = size) ∧
      (fd ≠ -1 → (FileHandler.init size fd s).2.fd = fd) ∧
      (∀ s' : Sys,
        (reduce_handler (FileHandler.init size fd s).2 s').2 ≠
          Except.error (Err.valueError unpicklableMsg)) := by
  by_cases hfd : fd = -1
  · subst hfd
    exact ⟨show ((s.fds.length : Int) ≠ -1) by omega, rfl,
      fun _ => ⟨rfl, fileSize_mk_append_last s.files ⟨size, []⟩
        (s.fds ++ [s.files.length]) s.named⟩,
      fun hne => absurd rfl hne,
      fun s' => reduce_not_usage_err _ s'
        (show ((s.fds.length : Int) ≠ -1) by omega)⟩
  · have hinit : FileHandler.init size fd s =
        (s, ⟨size, fd, (s.fdFile fd).getD 0⟩) := by
      rw [FileHandler.init, if_neg hfd]
    rw [hinit]
    exact ⟨hfd, rfl, fun he => absurd he hfd, fun _ => rfl,
      fun s' => reduce_not_usage_err _ s' hfd⟩

/-- Witness for C10 at both constructor modes. -/
theorem C10_constructed_handler_fd_witness :
    (FileHandler.init 8 (-1) emptySys).2.fd ≠ -1 ∧
      (FileHandler.init 8 3 emptySys).2.fd = 3 :=
  ⟨(C10_constructed_handler_fd 8 (-1) emptySys).1,
   (C10_constructed_handler_fd 8 3 emptySys).2.2.2.1 (by decide)⟩

end MemMap
